import Mathlib

/-!
Verification of the JSON interception and polling protocol of `playwright_plus`
(`src/playwright_plus/web_intercept.py`).

The development shallowly embeds the relevant Python code:

* Python values that flow through the protocol are modelled by `PyVal`
  (`None`, booleans, integers, strings, and dicts as cons-lists of
  key/value bindings; `pyDict` builds a dict literal).
* The response listener (`handle_response`, the inner closure of
  `intercept_json_playwright`) is embedded as a pure transformer of the shared
  `target_json` slot; the outcome of `response.json()` is supplied by the
  environment as a `DecodeOutcome` (a decoded body, a decode failure with
  its message, or an `asyncio.CancelledError`, which the listener's
  `except Exception` clause does not catch because `CancelledError` does not
  inherit from `Exception`).
* The polling loop of `intercept_json_playwright` is embedded as a fuel-based
  recursion over a per-iteration environment (`IterEnv`): the responses
  delivered during the iteration, the pair returned by the captcha solver when
  invoked, and the wall-clock duration of the iteration's work in milliseconds.
  `page.wait_for_timeout` is modelled as blocking for exactly the requested
  time.  The fuel is sufficient because every completed iteration adds at
  least 500 ms to `time_spent` and the loop only continues while
  `time_spent ≤ timeout`; `interceptLoop_fuel_stable` proves the result does
  not depend on the fuel once it is above that bound, which is exactly why the
  Python `while` loop terminates.
* Hooks (`json_detect_error`, `json_parse_result`, `captcha_solver_function`)
  are modelled by `Hook`: absent (`None`), a genuine callable, or a
  non-callable value with a given truthiness.  Applying a truthy non-callable
  parser raises a `TypeError`, modelled by the `Except.error` outcome of the
  whole call.
* `page.goto` failures are swallowed by the code (bare `except: pass`), so
  navigation has no effect on the embedded state other than the time it
  consumes (supplied by the environment) and the ghost `navs` trace recording
  each navigation request with its timeout argument.
-/

namespace WebIntercept

/-- Python values, as far as the interception protocol inspects them.
Dicts are cons-lists of key/value bindings (first binding wins on lookup; the
code only builds dicts with distinct keys). -/
inductive PyVal where
  | none
  | bool (b : Bool)
  | int (n : Int)
  | str (s : String)
  | dictNil
  | dictCons (key : String) (val : PyVal) (tl : PyVal)
deriving DecidableEq, Repr

/-- Build a dict value from a list of bindings. -/
def pyDict : List (String × PyVal) → PyVal
  | [] => .dictNil
  | (k, v) :: rest => .dictCons k v (pyDict rest)

/-- Python truthiness of a `PyVal` (`bool(v)`). -/
def PyVal.truthy : PyVal → Bool
  | .none => false
  | .bool b => b
  | .int n => n != 0
  | .str s => s != ""
  | .dictNil => false
  | .dictCons _ _ _ => true

/-- Whether the value is a dict (so that `.get` is legal on it in Python). -/
def PyVal.isDict : PyVal → Bool
  | .dictNil => true
  | .dictCons _ _ _ => true
  | _ => false

/-- Python `d.get(k, default)`; returns the default once the bindings are
exhausted (and on non-dict receivers, which the code never reaches because a
Python `.get` on a non-dict raises). -/
def PyVal.get (v : PyVal) (k : String) (dflt : PyVal) : PyVal :=
  match v with
  | .dictCons key val tl => if key = k then val else tl.get k dflt
  | _ => dflt

/-- Python `k in d` for a dict. -/
def PyVal.containsKey (v : PyVal) (k : String) : Bool :=
  match v with
  | .dictCons key _ tl => key = k || tl.containsKey k
  | _ => false

/-- Python `d[k] = v` on a dict value: replace the first binding of `k`, or
append one.  Identity on non-dicts (never reached). -/
def PyVal.set (d : PyVal) (k : String) (v : PyVal) : PyVal :=
  match d with
  | .dictCons key val tl =>
      if key = k then .dictCons key v tl else .dictCons key val (tl.set k v)
  | .dictNil => .dictCons k v .dictNil
  | x => x

/-- Python `sub in hay` for strings: substring containment. -/
def containsSub (hay sub : String) : Bool :=
  decide (sub.toList <:+: hay.toList)

/-- Outcome of `response.json()` for an intercepted response: a decoded body,
a decode failure carrying `str(jde)`, or an `asyncio.CancelledError` (raised,
e.g., when the underlying transport was already torn down). -/
inductive DecodeOutcome where
  | ok (body : PyVal)
  | decodeFail (msg : String)
  | cancelled
deriving DecidableEq, Repr

/-- A network response event as seen by a listener: its URL and the outcome of
decoding its body. -/
structure RespEvent where
  url : String
  body : DecodeOutcome
deriving DecidableEq, Repr

/-- The tagged error record `{"error": "PlaywrightInterceptError",
"error_message": msg, "data": {}}` built by the listeners. -/
def interceptErrorRecord (msg : PyVal) : PyVal :=
  pyDict [("error", .str "PlaywrightInterceptError"),
          ("error_message", msg),
          ("data", .dictNil)]

/-- Lines 165-173: what the listener stores for a decoded `buffer`:
the buffer itself if `buffer.get("error")` is falsy, otherwise the tagged
`PlaywrightInterceptError` record carrying `buffer["error"]`. -/
def bufferToSlotData (buffer : PyVal) : PyVal :=
  if (buffer.get "error" .none).truthy = false then buffer
  else interceptErrorRecord (buffer.get "error" .none)

/-- The `buffer` produced by the `try`/`except Exception` around
`response.json()`: `{"error": "exception when trying to intercept:" +
str(jde)}` on a decode failure. -/
def decodeFailBuffer (msg : String) : PyVal :=
  pyDict [("error", .str ("exception when trying to intercept:" ++ msg))]

/-- Effect of one delivered response on the shared `target_json` slot, as
performed by the listener registered by `intercept_json_playwright`
(lines 159-173): non-matching URLs leave the slot alone; a matching response
stores `bufferToSlotData buffer` under the `"data"` key.  A `CancelledError`
(or the `AttributeError` of `.get` on a non-dict body) escapes the listener
before any store, leaving the slot alone. -/
def handleSlot (filter : String) (slot : PyVal) (ev : RespEvent) : PyVal :=
  if containsSub ev.url filter then
    match ev.body with
    | .ok body => if body.isDict then slot.set "data" (bufferToSlotData body) else slot
    | .decodeFail msg => slot.set "data" (bufferToSlotData (decodeFailBuffer msg))
    | .cancelled => slot
  else slot

/-- The listener registered by `intercept_json_playwright` (lines 143-175),
with exception propagation made explicit: there is no enclosing
`try`/`except CancelledError`, so a `CancelledError` raised by
`response.json()` on a matching response propagates out of the callback
(`Except.error`), as does the `AttributeError` of `buffer.get` on a non-dict
body. -/
def handle_response (filter : String) (slot : PyVal) (ev : RespEvent) :
    Except String PyVal :=
  if containsSub ev.url filter then
    match ev.body with
    | .cancelled => .error "asyncio.CancelledError"
    | .ok body =>
        if body.isDict then .ok (slot.set "data" (bufferToSlotData body))
        else .error "AttributeError: json body has no attribute get"
    | .decodeFail msg =>
        .ok (slot.set "data" (bufferToSlotData (decodeFailBuffer msg)))
  else .ok slot

/-- Lines 21-29, `set_json_to_page`: the value stored into `page.target_json`
by the module-level listener factory. -/
def set_json_to_page (buffer : PyVal) : PyVal :=
  if (buffer.get "error" .none).truthy = false then buffer
  else interceptErrorRecord (buffer.get "error" .none)

/-- Lines 82-96, `construct_handle_response`: the module-level listener
factory.  Its whole body sits inside `try ... except CancelledError`, so a
`CancelledError` is swallowed (logged at debug level) and the page's
`target_json` is left unchanged. -/
def construct_handle_response (filter : String) (pageTargetJson : PyVal)
    (ev : RespEvent) : Except String PyVal :=
  if containsSub ev.url filter then
    match ev.body with
    | .cancelled => .ok pageTargetJson
    | .ok body =>
        if body.isDict then .ok (set_json_to_page body)
        else .error "AttributeError: json body has no attribute get"
    | .decodeFail msg => .ok (set_json_to_page (decodeFailBuffer msg))
  else .ok pageTargetJson

/-- Lines 32-44: the default error classifier `json_detect_error`. -/
def json_detect_error (result : PyVal) : Bool × PyVal :=
  if result.containsKey "error" && (result.get "error" .none).truthy then
    (true, result)
  else
    (false, result)

/-- Lines 47-57: the default result parser `json_parse_result`
(`result.get("data", {})`). -/
def json_parse_result (result : PyVal) : PyVal :=
  result.get "data" .dictNil

/-- An optional hook argument of `intercept_json_playwright`: absent
(`None`), a genuine callable, or a non-callable value with the given Python
truthiness. -/
inductive Hook (α : Type) where
  | absent
  | callable (f : α)
  | notCallable (isTruthyVal : Bool)

/-- Python `callable(h)`. -/
def Hook.isCallable : Hook α → Bool
  | .callable _ => true
  | _ => false

/-- Python truthiness of the hook value (`None` is falsy, functions are
truthy). -/
def Hook.isTruthy : Hook α → Bool
  | .absent => false
  | .callable _ => true
  | .notCallable t => t

/-- The per-call configuration of `intercept_json_playwright`
(lines 101-111): target URL, URL-substring filter, the three hooks, the
refresh budget, the overall timeout and the navigation timeout (both in
milliseconds, `int` in Python hence `Int` here). -/
structure InterceptConfig where
  pageUrl : String
  jsonUrlSubpart : String
  json_detect_error : Hook (PyVal → Bool × PyVal)
  json_parse_result : Hook (PyVal → PyVal)
  captcha_solver_function : Hook Unit
  max_refresh : Int
  timeout : Int
  goto_timeout : Int

/-- Environment of one loop iteration: the responses delivered to the listener
during the iteration (applied to the slot the loop rebound at its start), the
pair `(ask_for_refresh, captcha_solved)` the captcha solver returns if it is
invoked this iteration, and the wall-clock duration in milliseconds of the
iteration's work before the pacing step. -/
structure IterEnv where
  deliveries : List RespEvent
  solverResp : Bool × Bool
  workMs : Nat

/-- Environment of a whole call: duration of the initial `page.goto`, the
responses delivered during it, and the environment of each loop iteration. -/
structure InterceptEnv where
  gotoMs : Nat
  gotoDeliveries : List RespEvent
  iter : Nat → IterEnv

/-- The mutable locals of `intercept_json_playwright` (lines 134-141 and the
loop): `time_spent`, `nb_refresh`, `captcha_to_solve`, `is_error`, `result`,
the shared `target_json` slot, plus a ghost trace of every `page.goto`
request `(url, timeout)` issued so far. -/
structure PollSt where
  time_spent : Nat
  nb_refresh : Nat
  captcha_to_solve : Bool
  is_error : Bool
  result : PyVal
  target_json : PyVal
  navs : List (String × Int)
deriving DecidableEq, Repr

/-- Outcome of one loop iteration: the loop `break`s with the given state, or
falls through to the next iteration with the given (paced and timed) state. -/
inductive LoopStep where
  | brk (st : PollSt)
  | cont (st : PollSt)
deriving DecidableEq, Repr

/-- Lines 208-212: the empty-payload error result. -/
def emptyJsonError : PyVal :=
  pyDict [("error", .str "PlaywrightInterceptError"),
          ("error_message",
           .str "An empty json was collected after calling the hidden API."),
          ("data", .dictNil)]

/-- Lines 223-238: the captcha sub-protocol.  Runs only when the
`captcha_to_solve` flag is set and the solver is callable.  If the solver
reports the captcha solved, the flag is cleared and both the slot and the
tentative result are reset to empty dicts.  If it asks for a refresh, the
refresh counter is incremented and a navigation to the page URL with a fixed
3000 ms timeout is issued (recorded in the ghost `navs` trace; any navigation
error is swallowed by the bare `except: pass`). -/
def captchaBlock (cfg : InterceptConfig) (e : IterEnv) (st : PollSt) : PollSt :=
  if st.captcha_to_solve && cfg.captcha_solver_function.isCallable then
    let ask := e.solverResp.1
    let solved := e.solverResp.2
    let st1 :=
      if solved then
        { st with captcha_to_solve := false, target_json := .dictNil,
                  result := .dictNil }
      else st
    if ask then
      { st1 with nb_refresh := st1.nb_refresh + 1,
                 navs := st1.navs ++ [(cfg.pageUrl, 3000)] }
    else st1
  else st

/-- Lines 240-248: the pacing floor and the `time_spent` update.  If the
iteration's work took less than 500 ms the code sleeps for the remaining time,
so the re-measured iteration duration added to `time_spent` is
`workMs + sleptMs`. -/
def paceAndTick (e : IterEnv) (st : PollSt) : PollSt :=
  let sleptMs := if e.workMs < 500 then 500 - e.workMs else 0
  { st with time_spent := st.time_spent + (e.workMs + sleptMs) }

/-- Deliveries of this iteration mutate the slot the loop currently holds. -/
def applyDeliveries (filter : String) (evs : List RespEvent) (st : PollSt) :
    PollSt :=
  { st with target_json := evs.foldl (handleSlot filter) st.target_json }

/-- Lines 201-203: `is_error, result = json_detect_error(result)` when the
classifier is callable; otherwise `is_error` stays `False` and the result is
untouched. -/
def runDetect (h : Hook (PyVal → Bool × PyVal)) (r : PyVal) : Bool × PyVal :=
  match h with
  | .callable f => f r
  | _ => (false, r)

/-- Lines 189-248: one iteration of the polling loop.  Reads and rebinds the
slot (`target_json = target_json.get("data", {})`), builds the tentative
result, runs the classifier if callable, then either notes the empty-payload
error and falls through, raises the captcha flag and falls through, or breaks
with the classified result.  Fallthrough paths run the captcha block, receive
this iteration's deliveries, and are paced and timed. -/
def iterBody (cfg : InterceptConfig) (e : IterEnv) (st : PollSt) : LoopStep :=
  let target := st.target_json.get "data" .dictNil
  let tentative : PyVal :=
    pyDict [("error", .none), ("error_message", .none), ("data", target)]
  let classified := runDetect cfg.json_detect_error tentative
  let st0 := { st with target_json := target, is_error := classified.1 }
  if target.truthy = false then
    let st1 := { st0 with result := emptyJsonError }
    .cont (paceAndTick e (applyDeliveries cfg.jsonUrlSubpart e.deliveries
      (captchaBlock cfg e st1)))
  else if classified.2.get "error" .none = .str "CaptchaRaisedError" then
    let st1 := { st0 with result := classified.2, captcha_to_solve := true }
    .cont (paceAndTick e (applyDeliveries cfg.jsonUrlSubpart e.deliveries
      (captchaBlock cfg e st1)))
  else
    .brk { st0 with result := classified.2 }

/-- Line 188: the loop guard
`(time_spent <= timeout) and (nb_refresh < max_refresh)`. -/
def loopCond (cfg : InterceptConfig) (st : PollSt) : Bool :=
  ((st.time_spent : Int) ≤ cfg.timeout) && ((st.nb_refresh : Int) < cfg.max_refresh)

/-- The polling loop, with fuel making the recursion structural.  The fuel is
irrelevant once large enough (`interceptLoop_fuel_stable`). -/
def interceptLoop (cfg : InterceptConfig) (env : InterceptEnv) :
    Nat → Nat → PollSt → PollSt
  | 0, _, st => st
  | fuel + 1, i, st =>
    if loopCond cfg st then
      match iterBody cfg (env.iter i) st with
      | .brk st' => st'
      | .cont st' => interceptLoop cfg env fuel (i + 1) st'
    else st

/-- Lines 250-254: the final parsing step
`if (not is_error) and json_parse_result: result = json_parse_result(result)`.
Note the parser is guarded by truthiness, not by `callable`, so a truthy
non-callable parser raises a `TypeError` here, after the loop. -/
def finalize (cfg : InterceptConfig) (st : PollSt) : Except String PyVal :=
  if !st.is_error && cfg.json_parse_result.isTruthy then
    match cfg.json_parse_result with
    | .callable f => .ok (f st.result)
    | _ => .error "TypeError: json_parse_result object is not callable"
  else .ok st.result

/-- Fuel that is always sufficient for the loop (see
`interceptLoop_fuel_stable`). -/
def interceptFuel (cfg : InterceptConfig) : Nat :=
  cfg.timeout.toNat / 500 + 1

/-- Lines 134-185: the state just before the loop: `time_spent` counts the
initial navigation, the listener has already received the responses delivered
during it, `result` is the empty dict, and the ghost trace records the initial
`page.goto(page_url, timeout=goto_timeout)`. -/
def initSt (cfg : InterceptConfig) (env : InterceptEnv) : PollSt :=
  { time_spent := env.gotoMs
    nb_refresh := 0
    captcha_to_solve := false
    is_error := false
    result := .dictNil
    target_json := env.gotoDeliveries.foldl (handleSlot cfg.jsonUrlSubpart) .dictNil
    navs := [(cfg.pageUrl, cfg.goto_timeout)] }

/-- Lines 101-254: the whole of `intercept_json_playwright` (navigation,
polling loop, final parsing).  `Except.error` models an exception escaping the
call (only the `TypeError` of a truthy non-callable parser can). -/
def intercept_json_playwright (cfg : InterceptConfig) (env : InterceptEnv) :
    Except String PyVal :=
  finalize cfg (interceptLoop cfg env (interceptFuel cfg) 0 (initSt cfg env))

/-! ### Specification-side predicates and concrete instances -/

/-- The spec's well-formed Result shape: a mapping with `error`,
`error_message` and `data` fields, where `error` is absent (falsy) exactly
when `data` holds a usable (truthy) payload. -/
def wellFormedResult (r : PyVal) : Prop :=
  r.containsKey "error" = true ∧ r.containsKey "error_message" = true ∧
  r.containsKey "data" = true ∧
  ((r.get "error" .none).truthy = false ↔ (r.get "data" .none).truthy = true)

/-- A call outcome that is a well-formed Result (in particular, not a raised
exception). -/
def wellFormedOutcome : Except String PyVal → Prop
  | .ok r => wellFormedResult r
  | .error _ => False

/-- A configuration with all hooks absent, `max_refresh=1`, `timeout=4000`,
the defaults of `intercept_json_playwright`. -/
def plainCfg : InterceptConfig :=
  { pageUrl := "https://example.com/"
    jsonUrlSubpart := "api"
    json_detect_error := .absent
    json_parse_result := .absent
    captcha_solver_function := .absent
    max_refresh := 1
    timeout := 4000
    goto_timeout := 30000 }

/-- An iteration in which nothing happens: no response arrives and the work is
instantaneous. -/
def quietIter : IterEnv :=
  { deliveries := [], solverResp := (false, false), workMs := 0 }

/-- An environment in which no response ever arrives and navigation is
instantaneous. -/
def quietEnv : InterceptEnv :=
  { gotoMs := 0, gotoDeliveries := [], iter := fun _ => quietIter }

/-- Configuration with the module's default parser configured (as in the
repository's own tests) and everything else at its default. -/
def c1Cfg : InterceptConfig :=
  { plainCfg with json_parse_result := .callable json_parse_result }

/-- Configuration with the module's default classifier and parser configured. -/
def c2Cfg : InterceptConfig :=
  { plainCfg with json_detect_error := .callable json_detect_error,
                  json_parse_result := .callable json_parse_result,
                  timeout := 400 }

/-- Environment delivering, during the initial navigation, one matching
response whose body fails to decode. -/
def c2Env : InterceptEnv :=
  { gotoMs := 0
    gotoDeliveries :=
      [⟨"https://x.com/api/1", .decodeFail "Expecting value: line 1 column 1 (char 0)"⟩]
    iter := fun _ => quietIter }

/-- Configuration whose refresh budget is already exhausted
(`max_refresh=0`): the loop never runs. -/
def c8Cfg : InterceptConfig := { plainCfg with max_refresh := 0 }

/-- Configuration passing a truthy non-callable value where the classifier
callable was expected. -/
def c9Cfg : InterceptConfig :=
  { plainCfg with json_detect_error := .notCallable true, timeout := 400 }

/-- Additionally passes a truthy non-callable value as the result parser. -/
def c9bCfg : InterceptConfig :=
  { c9Cfg with json_parse_result := .notCallable true }

/-- Configuration with a callable captcha solver. -/
def c6Cfg : InterceptConfig :=
  { plainCfg with captcha_solver_function := .callable () }

/-- Iteration environment whose solver reports `(ask_for_refresh=True,
captcha_solved=True)`. -/
def c6Env : IterEnv :=
  { deliveries := [], solverResp := (true, true), workMs := 0 }

/-- A loop state with the captcha flag raised. -/
def c6St : PollSt :=
  { time_spent := 0, nb_refresh := 0, captcha_to_solve := true, is_error := false,
    result := emptyJsonError,
    target_json := pyDict [("error", .str "CaptchaRaisedError")], navs := [] }

/-- Configuration with the default parser and a timeout that is already
negative, so the loop never runs. -/
def c7Cfg : InterceptConfig :=
  { plainCfg with json_parse_result := .callable json_parse_result, timeout := -1 }

/-- The state in which the loop of `c7Cfg` (whose guard fails immediately)
leaves the engine. -/
def c7St : PollSt :=
  { time_spent := 0, nb_refresh := 0, captcha_to_solve := false, is_error := false,
    result := .dictNil, target_json := .dictNil,
    navs := [("https://example.com/", 30000)] }

/-- A quiet pre-iteration state for exercising one loop iteration. -/
def c5InSt : PollSt :=
  { time_spent := 0, nb_refresh := 0, captcha_to_solve := false, is_error := false,
    result := .dictNil, target_json := .dictNil, navs := [] }

/-- The state after one quiet iteration from `c5InSt`: the empty-payload error
is noted and the pacing floor brings the iteration to 500 ms. -/
def c5OutSt : PollSt :=
  { time_spent := 500, nb_refresh := 0, captcha_to_solve := false, is_error := false,
    result := emptyJsonError, target_json := .dictNil, navs := [] }

/-! ### Helper lemmas -/

theorem paceAndTick_time_spent (e : IterEnv) (st : PollSt) :
    (paceAndTick e st).time_spent =
      st.time_spent + (e.workMs + (if e.workMs < 500 then 500 - e.workMs else 0)) := rfl

theorem paceAndTick_result (e : IterEnv) (st : PollSt) :
    (paceAndTick e st).result = st.result := rfl

theorem paceAndTick_nb_refresh (e : IterEnv) (st : PollSt) :
    (paceAndTick e st).nb_refresh = st.nb_refresh := rfl

theorem paceAndTick_captcha (e : IterEnv) (st : PollSt) :
    (paceAndTick e st).captcha_to_solve = st.captcha_to_solve := rfl

theorem paceAndTick_target (e : IterEnv) (st : PollSt) :
    (paceAndTick e st).target_json = st.target_json := rfl

theorem applyDeliveries_time_spent (f : String) (evs : List RespEvent) (st : PollSt) :
    (applyDeliveries f evs st).time_spent = st.time_spent := rfl

theorem applyDeliveries_result (f : String) (evs : List RespEvent) (st : PollSt) :
    (applyDeliveries f evs st).result = st.result := rfl

theorem applyDeliveries_nb_refresh (f : String) (evs : List RespEvent) (st : PollSt) :
    (applyDeliveries f evs st).nb_refresh = st.nb_refresh := rfl

theorem applyDeliveries_captcha (f : String) (evs : List RespEvent) (st : PollSt) :
    (applyDeliveries f evs st).captcha_to_solve = st.captcha_to_solve := rfl

theorem applyDeliveries_target (f : String) (evs : List RespEvent) (st : PollSt) :
    (applyDeliveries f evs st).target_json = evs.foldl (handleSlot f) st.target_json := rfl

theorem captchaBlock_of_not_flag (cfg : InterceptConfig) (e : IterEnv) (st : PollSt)
    (h : st.captcha_to_solve = false) : captchaBlock cfg e st = st := by
  simp [captchaBlock, h]

theorem captchaBlock_time_spent (cfg : InterceptConfig) (e : IterEnv) (st : PollSt) :
    (captchaBlock cfg e st).time_spent = st.time_spent := by
  unfold captchaBlock
  split
  · dsimp only
    split <;> split <;> rfl
  · rfl

theorem captchaBlock_nb_refresh_le (cfg : InterceptConfig) (e : IterEnv) (st : PollSt) :
    (captchaBlock cfg e st).nb_refresh ≤ st.nb_refresh + 1 := by
  unfold captchaBlock
  split
  · dsimp only
    split <;> split <;> simp
  · simp

theorem iterBody_cont_time_spent (cfg : InterceptConfig) (e : IterEnv) (st st' : PollSt)
    (h : iterBody cfg e st = .cont st') :
    st'.time_spent =
      st.time_spent + (e.workMs + (if e.workMs < 500 then 500 - e.workMs else 0)) := by
  simp only [iterBody] at h
  split at h
  · cases h
    simp [paceAndTick_time_spent, applyDeliveries_time_spent, captchaBlock_time_spent]
  · split at h
    · cases h
      simp [paceAndTick_time_spent, applyDeliveries_time_spent, captchaBlock_time_spent]
    · cases h

theorem iterBody_cont_time_ge (cfg : InterceptConfig) (e : IterEnv) (st st' : PollSt)
    (h : iterBody cfg e st = .cont st') :
    st.time_spent + 500 ≤ st'.time_spent := by
  have h1 := iterBody_cont_time_spent cfg e st st' h
  split at h1 <;> omega

theorem iterBody_brk_nb_refresh (cfg : InterceptConfig) (e : IterEnv) (st st' : PollSt)
    (h : iterBody cfg e st = .brk st') : st'.nb_refresh = st.nb_refresh := by
  simp only [iterBody] at h
  split at h
  · cases h
  · split at h
    · cases h
    · cases h
      rfl

theorem iterBody_cont_nb_refresh_le (cfg : InterceptConfig) (e : IterEnv) (st st' : PollSt)
    (h : iterBody cfg e st = .cont st') : st'.nb_refresh ≤ st.nb_refresh + 1 := by
  simp only [iterBody] at h
  split at h
  · cases h
    simpa [paceAndTick_nb_refresh, applyDeliveries_nb_refresh] using
      captchaBlock_nb_refresh_le cfg e _
  · split at h
    · cases h
      simpa [paceAndTick_nb_refresh, applyDeliveries_nb_refresh] using
        captchaBlock_nb_refresh_le cfg e _
    · cases h

theorem interceptLoop_of_cond_false (cfg : InterceptConfig) (env : InterceptEnv)
    (st : PollSt) (h : loopCond cfg st = false) (fuel i : Nat) :
    interceptLoop cfg env fuel i st = st := by
  cases fuel with
  | zero => rfl
  | succ n => simp [interceptLoop, h]

theorem loopCond_true_iff (cfg : InterceptConfig) (st : PollSt) :
    loopCond cfg st = true ↔
      (st.time_spent : Int) ≤ cfg.timeout ∧ (st.nb_refresh : Int) < cfg.max_refresh := by
  simp [loopCond]

/-- The fuel argument is irrelevant once it dominates the remaining time
budget: every completed iteration adds at least 500 ms to `time_spent` and the
guard requires `time_spent ≤ timeout`.  This is the termination argument of
the Python `while` loop, and it makes the fuel-based embedding faithful. -/
theorem interceptLoop_fuel_stable (cfg : InterceptConfig) (env : InterceptEnv) :
    ∀ (f₁ f₂ i : Nat) (st : PollSt),
      cfg.timeout < (st.time_spent : Int) + 500 * f₁ →
      cfg.timeout < (st.time_spent : Int) + 500 * f₂ →
      interceptLoop cfg env f₁ i st = interceptLoop cfg env f₂ i st := by
  intro f₁
  induction f₁ with
  | zero =>
    intro f₂ i st h₁ h₂
    have hc : loopCond cfg st = false := by
      simp only [loopCond, Bool.and_eq_false_iff, decide_eq_false_iff_not]
      left
      omega
    rw [interceptLoop_of_cond_false cfg env st hc f₂ i]
    rfl
  | succ n ih =>
    intro f₂ i st h₁ h₂
    by_cases hc : loopCond cfg st = true
    · have htime : (st.time_spent : Int) ≤ cfg.timeout := ((loopCond_true_iff cfg st).mp hc).1
      obtain ⟨m, rfl⟩ : ∃ m, f₂ = m + 1 := by
        cases f₂ with
        | zero => exfalso; omega
        | succ m => exact ⟨m, rfl⟩
      rw [interceptLoop, interceptLoop]
      simp only [hc, if_true]
      cases hb : iterBody cfg (env.iter i) st with
      | brk st' => rfl
      | cont st' =>
        have hge := iterBody_cont_time_ge cfg (env.iter i) st st' hb
        refine ih m (i + 1) st' ?_ ?_ <;> omega
    · have hc' : loopCond cfg st = false := by
        cases hcc : loopCond cfg st
        · rfl
        · exact absurd hcc hc
      rw [interceptLoop_of_cond_false cfg env st hc' (n + 1) i,
          interceptLoop_of_cond_false cfg env st hc' f₂ i]

theorem handleSlot_nonmatch (f : String) (slot : PyVal) (ev : RespEvent)
    (h : containsSub ev.url f = false) : handleSlot f slot ev = slot := by
  simp [handleSlot, h]

theorem foldl_handleSlot_nonmatch (f : String) (evs : List RespEvent)
    (h : ∀ ev ∈ evs, containsSub ev.url f = false) (slot : PyVal) :
    evs.foldl (handleSlot f) slot = slot := by
  induction evs generalizing slot with
  | nil => rfl
  | cons e es ihes =>
    rw [List.foldl_cons, handleSlot_nonmatch f slot e (h e (by simp))]
    exact ihes (fun ev hev => h ev (by simp [hev])) slot

theorem finalize_parse_absent (cfg : InterceptConfig) (st : PollSt)
    (hp : cfg.json_parse_result = .absent) : finalize cfg st = .ok st.result := by
  simp [finalize, hp, Hook.isTruthy]

theorem bufferToSlotData_decodeFail (msg : String) :
    bufferToSlotData (decodeFailBuffer msg) =
      interceptErrorRecord (.str ("exception when trying to intercept:" ++ msg)) := by
  have hne : ("exception when trying to intercept:" ++ msg) ≠ "" := by
    intro hcontra
    have hl := congrArg String.length hcontra
    rw [String.length_append] at hl
    have h35 : ("exception when trying to intercept:").length = 35 := rfl
    have h0 : ("").length = 0 := rfl
    omega
  simp [bufferToSlotData, decodeFailBuffer, pyDict, PyVal.get, PyVal.truthy,
    interceptErrorRecord, hne]

theorem containsSub_append_right (pre msg : String) :
    containsSub (pre ++ msg) msg = true := by
  apply decide_eq_true
  show msg.toList <:+: (pre ++ msg).toList
  have hl : (pre ++ msg).toList = pre.toList ++ msg.toList := rfl
  rw [hl]
  exact (List.suffix_append _ _).isInfix

theorem bool_not_true {b : Bool} (h : ¬ b = true) : b = false := by
  cases b
  · rfl
  · exact absurd rfl h

theorem iterBody_empty_step (cfg : InterceptConfig) (e : IterEnv) (st : PollSt)
    (hquiet : ∀ ev ∈ e.deliveries, containsSub ev.url cfg.jsonUrlSubpart = false)
    (ht : st.target_json = .dictNil) (hc : st.captcha_to_solve = false) :
    ∃ st', iterBody cfg e st = .cont st' ∧ st'.target_json = .dictNil ∧
      st'.captcha_to_solve = false ∧ st'.result = emptyJsonError := by
  obtain ⟨ts, nr, cts, ie, res, tj, nv⟩ := st
  replace ht : tj = .dictNil := ht
  replace hc : cts = false := hc
  subst ht
  subst hc
  refine ⟨_, rfl, ?_, rfl, rfl⟩
  exact foldl_handleSlot_nonmatch _ _ hquiet _

theorem interceptLoop_empty (cfg : InterceptConfig) (env : InterceptEnv)
    (hquiet : ∀ i, ∀ ev ∈ (env.iter i).deliveries,
      containsSub ev.url cfg.jsonUrlSubpart = false) :
    ∀ (fuel i : Nat) (st : PollSt), st.target_json = .dictNil →
      st.captcha_to_solve = false → st.result = emptyJsonError →
      (interceptLoop cfg env fuel i st).result = emptyJsonError := by
  intro fuel
  induction fuel with
  | zero => intro i st _ _ hr; exact hr
  | succ n ih =>
    intro i st ht hc hr
    by_cases hcond : loopCond cfg st = true
    · rw [interceptLoop]
      simp only [hcond, if_true]
      obtain ⟨st', hstep, ht', hc', hr'⟩ :=
        iterBody_empty_step cfg (env.iter i) st (hquiet i) ht hc
      rw [hstep]
      exact ih (i + 1) st' ht' hc' hr'
    · rw [interceptLoop_of_cond_false cfg env st (bool_not_true hcond) (n + 1) i]
      exact hr

theorem wellFormed_emptyJsonError : wellFormedResult emptyJsonError := by
  refine ⟨rfl, rfl, rfl, ?_⟩
  decide

theorem wellFormed_tentative (target : PyVal) (h : target.truthy = true) :
    wellFormedResult
      (pyDict [("error", .none), ("error_message", .none), ("data", target)]) := by
  refine ⟨rfl, rfl, rfl, ?_⟩
  show PyVal.none.truthy = false ↔ target.truthy = true
  rw [h]
  decide

theorem iterBody_detect_absent_cases (cfg : InterceptConfig) (e : IterEnv)
    (st : PollSt) (hdetect : cfg.json_detect_error = .absent)
    (hc : st.captcha_to_solve = false) (st' : PollSt) :
    (iterBody cfg e st = .brk st' → wellFormedResult st'.result) ∧
    (iterBody cfg e st = .cont st' → st'.captcha_to_solve = false ∧
      wellFormedResult st'.result) := by
  constructor
  · intro h
    simp only [iterBody, hdetect, runDetect] at h
    split at h
    · cases h
    · split at h
      · cases h
      · cases h
        rename_i h1 h2
        exact wellFormed_tentative _ (by simpa using h1)
  · intro h
    simp only [iterBody, hdetect, runDetect] at h
    split at h
    · cases h
      have hcb := captchaBlock_of_not_flag cfg e
        { st with target_json := st.target_json.get "data" PyVal.dictNil,
                  is_error := false, result := emptyJsonError } hc
      constructor
      · rw [paceAndTick_captcha, applyDeliveries_captcha, hcb]
        exact hc
      · rw [paceAndTick_result, applyDeliveries_result, hcb]
        exact wellFormed_emptyJsonError
    · split at h
      · rename_i h1 h2
        exfalso
        simp [pyDict, PyVal.get] at h2
      · cases h

theorem interceptLoop_wellFormed (cfg : InterceptConfig) (env : InterceptEnv)
    (hdetect : cfg.json_detect_error = .absent) :
    ∀ (fuel i : Nat) (st : PollSt), st.captcha_to_solve = false →
      wellFormedResult st.result →
      wellFormedResult (interceptLoop cfg env fuel i st).result := by
  intro fuel
  induction fuel with
  | zero => intro i st _ hr; exact hr
  | succ n ih =>
    intro i st hc hr
    by_cases hcond : loopCond cfg st = true
    · rw [interceptLoop]
      simp only [hcond, if_true]
      cases hb : iterBody cfg (env.iter i) st with
      | brk st' =>
        exact (iterBody_detect_absent_cases cfg (env.iter i) st hdetect hc st').1 hb
      | cont st' =>
        obtain ⟨hc', hwf⟩ :=
          (iterBody_detect_absent_cases cfg (env.iter i) st hdetect hc st').2 hb
        exact ih (i + 1) st' hc' hwf
    · rw [interceptLoop_of_cond_false cfg env st (bool_not_true hcond) (n + 1) i]
      exact hr

theorem loopCond_init_true (cfg : InterceptConfig) (env : InterceptEnv)
    (hgoto : (env.gotoMs : Int) ≤ cfg.timeout) (hrefresh : 0 < cfg.max_refresh) :
    loopCond cfg (initSt cfg env) = true := by
  rw [loopCond_true_iff]
  refine ⟨hgoto, ?_⟩
  show ((0 : Nat) : Int) < cfg.max_refresh
  simpa using hrefresh

theorem interceptLoop_congr (cfgA cfgB : InterceptConfig) (env : InterceptEnv)
    (hcond : ∀ st, loopCond cfgA st = loopCond cfgB st)
    (hbody : ∀ e st, iterBody cfgA e st = iterBody cfgB e st) :
    ∀ (fuel i : Nat) (st : PollSt),
      interceptLoop cfgA env fuel i st = interceptLoop cfgB env fuel i st := by
  intro fuel
  induction fuel with
  | zero => intro i st; rfl
  | succ n ih =>
    intro i st
    rw [interceptLoop, interceptLoop, hcond st, hbody (env.iter i) st]
    by_cases hc : loopCond cfgB st = true
    · simp only [hc, if_true]
      cases hb : iterBody cfgB (env.iter i) st with
      | brk st' => rfl
      | cont st' => exact ih (i + 1) st'
    · simp [bool_not_true hc]

/-! ### Claims -/

/-- C3: the claim states that no exception ever propagates out of the listener
callback registered by `intercept_json_playwright`.  The code violates this:
that listener (the inner `handle_response`, lines 143-175) has no enclosing
`try`/`except CancelledError`, so an `asyncio.CancelledError` raised by
`response.json()` on a matching response propagates out of the callback —
unlike the module-level `construct_handle_response` (lines 82-96) and the
listeners of `intercept_json_playwright_old` and
`intercept_json_playwright_multiple`, all of which swallow it.  This theorem
evaluates both listeners at the failing input. -/
theorem c3_cancelled_error_propagates :
    handle_response "api" .dictNil ⟨"https://x.com/api/1", .cancelled⟩ =
      .error "asyncio.CancelledError" ∧
    construct_handle_response "api" .dictNil ⟨"https://x.com/api/1", .cancelled⟩ =
      .ok .dictNil := by
  exact ⟨rfl, rfl⟩

/-- C10: the default error classifier `json_detect_error` is pure: on every
mapping `r` it leaves the mapping untouched and reports an error exactly when
`r` binds the key `"error"` to a truthy value. -/
theorem c10_default_classifier_pure (r : PyVal) (_hr : r.isDict = true) :
    (json_detect_error r).2 = r ∧
    ((json_detect_error r).1 = true ↔
      r.containsKey "error" = true ∧ (r.get "error" .none).truthy = true) := by
  unfold json_detect_error
  constructor
  · split <;> rfl
  · split <;> rename_i h
    · simp only [Bool.and_eq_true] at h
      simp [h]
    · simp only [Bool.and_eq_true, not_and] at h
      simp only [Bool.false_eq_true, false_iff, not_and]
      exact h

/-- Witness for C10 at a concrete mapping carrying a truthy error value. -/
theorem c10_default_classifier_pure_witness :
    (pyDict [("error", .str "CaptchaRaisedError")]).isDict = true ∧
    (json_detect_error (pyDict [("error", .str "CaptchaRaisedError")])).2 =
      pyDict [("error", .str "CaptchaRaisedError")] ∧
    ((json_detect_error (pyDict [("error", .str "CaptchaRaisedError")])).1 = true ↔
      (pyDict [("error", .str "CaptchaRaisedError")]).containsKey "error" = true ∧
      ((pyDict [("error", .str "CaptchaRaisedError")]).get "error" .none).truthy = true) :=
  ⟨by decide, c10_default_classifier_pure _ (by decide)⟩

/-- C6: the captcha sub-protocol (lines 223-238).  When the captcha-pending
flag is set and a callable solver is configured: a `captcha_solved` verdict
clears the flag and resets both the intercepted-payload slot and the
tentative result to empty; an `ask_for_refresh` verdict increments the
refresh counter and issues a re-navigation to the target URL with the fixed
3000 ms timeout (whose errors the bare `except: pass` swallows). -/
theorem c6_captcha_solver_protocol (cfg : InterceptConfig) (e : IterEnv) (st : PollSt)
    (ask solved : Bool)
    (hflag : st.captcha_to_solve = true)
    (hcall : cfg.captcha_solver_function.isCallable = true)
    (hresp : e.solverResp = (ask, solved)) :
    (solved = true →
      (captchaBlock cfg e st).captcha_to_solve = false ∧
      (captchaBlock cfg e st).target_json = .dictNil ∧
      (captchaBlock cfg e st).result = .dictNil) ∧
    (ask = true →
      (captchaBlock cfg e st).nb_refresh = st.nb_refresh + 1 ∧
      (captchaBlock cfg e st).navs = st.navs ++ [(cfg.pageUrl, 3000)]) := by
  unfold captchaBlock
  rw [hflag, hcall, hresp]
  cases ask <;> cases solved <;> simp

/-- Witness for C6: a state with the flag raised, a callable solver and the
verdict `(ask_for_refresh=True, captcha_solved=True)`. -/
theorem c6_captcha_solver_protocol_witness :
    ((captchaBlock c6Cfg c6Env c6St).captcha_to_solve = false ∧
      (captchaBlock c6Cfg c6Env c6St).target_json = .dictNil ∧
      (captchaBlock c6Cfg c6Env c6St).result = .dictNil) ∧
    ((captchaBlock c6Cfg c6Env c6St).nb_refresh = c6St.nb_refresh + 1 ∧
      (captchaBlock c6Cfg c6Env c6St).navs = c6St.navs ++ [(c6Cfg.pageUrl, 3000)]) :=
  ⟨(c6_captcha_solver_protocol c6Cfg c6Env c6St true true rfl rfl rfl).1 rfl,
   (c6_captcha_solver_protocol c6Cfg c6Env c6St true true rfl rfl rfl).2 rfl⟩

/-- C5: pacing floor (lines 240-248).  Whenever a loop iteration completes
(falls through to the next guard check), the elapsed time it adds is the
actual measured duration — the iteration's work plus the sleep that tops it up
to the 500 ms floor — and is therefore at least 500 ms. -/
theorem c5_pacing_floor (cfg : InterceptConfig) (e : IterEnv) (st st' : PollSt)
    (h : iterBody cfg e st = .cont st') :
    st'.time_spent =
      st.time_spent + (e.workMs + (if e.workMs < 500 then 500 - e.workMs else 0)) ∧
    st.time_spent + 500 ≤ st'.time_spent := by
  have h1 := iterBody_cont_time_spent cfg e st st' h
  refine ⟨h1, ?_⟩
  split at h1 <;> omega

/-- Witness for C5: one quiet iteration whose work is instantaneous is paced
to exactly 500 ms. -/
theorem c5_pacing_floor_witness :
    iterBody plainCfg quietIter c5InSt = .cont c5OutSt ∧
    (c5OutSt.time_spent =
      c5InSt.time_spent +
        (quietIter.workMs + (if quietIter.workMs < 500 then 500 - quietIter.workMs else 0)) ∧
    c5InSt.time_spent + 500 ≤ c5OutSt.time_spent) :=
  ⟨rfl, c5_pacing_floor plainCfg quietIter c5InSt c5OutSt rfl⟩

/-- C4: the refresh budget invariant (line 188 and lines 231-238).  If the
refresh count is within the budget at entry it stays within the budget for
the whole run of the loop, and the loop body executes only while the guard
`time_spent ≤ timeout and nb_refresh < max_refresh` holds — a state failing
the guard is returned untouched. -/
theorem c4_refresh_budget_invariant (cfg : InterceptConfig) (env : InterceptEnv) :
    ∀ (fuel i : Nat) (st : PollSt),
      (((st.nb_refresh : Int) ≤ cfg.max_refresh) →
        ((interceptLoop cfg env fuel i st).nb_refresh : Int) ≤ cfg.max_refresh) ∧
      (loopCond cfg st = false → interceptLoop cfg env fuel i st = st) := by
  intro fuel
  induction fuel with
  | zero => exact fun i st => ⟨fun h => h, fun _ => rfl⟩
  | succ n ih =>
    intro i st
    constructor
    · intro hle
      by_cases hc : loopCond cfg st = true
      · have hlt : (st.nb_refresh : Int) < cfg.max_refresh :=
          ((loopCond_true_iff cfg st).mp hc).2
        rw [interceptLoop]
        simp only [hc, if_true]
        cases hb : iterBody cfg (env.iter i) st with
        | brk st' =>
          rw [iterBody_brk_nb_refresh cfg (env.iter i) st st' hb]
          omega
        | cont st' =>
          have hle' := iterBody_cont_nb_refresh_le cfg (env.iter i) st st' hb
          exact (ih (i + 1) st').1 (by omega)
      · have hc' : loopCond cfg st = false := by
          cases hcc : loopCond cfg st
          · rfl
          · exact absurd hcc hc
        rw [interceptLoop_of_cond_false cfg env st hc' (n + 1) i]
        exact hle
    · intro hfalse
      exact interceptLoop_of_cond_false cfg env st hfalse (n + 1) i

/-- Witness for C4: the quiet default run keeps the refresh count within the
budget, and a guard-failing state is returned untouched. -/
theorem c4_refresh_budget_invariant_witness :
    (((initSt plainCfg quietEnv).nb_refresh : Int) ≤ plainCfg.max_refresh →
      ((interceptLoop plainCfg quietEnv 9 0 (initSt plainCfg quietEnv)).nb_refresh : Int) ≤
        plainCfg.max_refresh) ∧
    (loopCond c8Cfg (initSt c8Cfg quietEnv) = false →
      interceptLoop c8Cfg quietEnv 9 0 (initSt c8Cfg quietEnv) = initSt c8Cfg quietEnv) :=
  ⟨(c4_refresh_budget_invariant plainCfg quietEnv 9 0 (initSt plainCfg quietEnv)).1,
   (c4_refresh_budget_invariant c8Cfg quietEnv 9 0 (initSt c8Cfg quietEnv)).2⟩

/-- C7: the post-loop parsing policy (lines 250-254).  Once the loop has
exited in state `stF`: if the last classifier verdict was not an error and a
parser callable is configured, the call returns the parser applied to the
final result; if the verdict was an error, or no parser is configured, the
final result is returned unchanged. -/
theorem c7_post_loop_parse (cfg : InterceptConfig) (env : InterceptEnv) (stF : PollSt)
    (h : interceptLoop cfg env (interceptFuel cfg) 0 (initSt cfg env) = stF) :
    (∀ f, stF.is_error = false → cfg.json_parse_result = .callable f →
      intercept_json_playwright cfg env = .ok (f stF.result)) ∧
    (stF.is_error = true → intercept_json_playwright cfg env = .ok stF.result) ∧
    (cfg.json_parse_result = .absent → intercept_json_playwright cfg env = .ok stF.result) := by
  unfold intercept_json_playwright
  rw [h]
  refine ⟨?_, ?_, ?_⟩
  · intro f he hp
    simp [finalize, he, hp, Hook.isTruthy]
  · intro he
    simp [finalize, he]
  · intro hp
    simp [finalize, hp, Hook.isTruthy]

/-- Witness for C7: with a negative timeout the loop exits immediately in
`c7St`; the configured default parser is applied to the final result. -/
theorem c7_post_loop_parse_witness :
    interceptLoop c7Cfg quietEnv (interceptFuel c7Cfg) 0 (initSt c7Cfg quietEnv) = c7St ∧
    intercept_json_playwright c7Cfg quietEnv = .ok (json_parse_result c7St.result) :=
  ⟨rfl, (c7_post_loop_parse c7Cfg quietEnv c7St rfl).1 json_parse_result rfl rfl⟩

/-- C2: a matched response whose body fails to decode makes the listener
replace the slot's payload with the tagged error record carrying
`"exception when trying to intercept:" + str(jde)`, whose message contains
the decode failure text as a substring; and a full run intercepting such a
response with the module's default classifier and parser returns exactly that
tagged record (as the repository's own invalid-json test asserts). -/
theorem c2_decode_failure_tagged (slot : PyVal) (url filter msg : String)
    (hmatch : containsSub url filter = true) :
    handleSlot filter slot ⟨url, .decodeFail msg⟩ =
      slot.set "data"
        (interceptErrorRecord (.str ("exception when trying to intercept:" ++ msg))) ∧
    containsSub ("exception when trying to intercept:" ++ msg) msg = true ∧
    intercept_json_playwright c2Cfg c2Env =
      .ok (interceptErrorRecord
        (.str "exception when trying to intercept:Expecting value: line 1 column 1 (char 0)")) := by
  refine ⟨?_, containsSub_append_right _ msg, rfl⟩
  show (if containsSub url filter = true then _ else _) = _
  rw [if_pos hmatch]
  show slot.set "data" (bufferToSlotData (decodeFailBuffer msg)) =
    slot.set "data"
      (interceptErrorRecord (.str ("exception when trying to intercept:" ++ msg)))
  rw [bufferToSlotData_decodeFail]

/-- Witness for C2 at a concrete matching response and decode failure. -/
theorem c2_decode_failure_tagged_witness :
    containsSub "https://x.com/api/1" "api" = true ∧
    handleSlot "api" .dictNil ⟨"https://x.com/api/1", .decodeFail "boom"⟩ =
      PyVal.dictNil.set "data"
        (interceptErrorRecord (.str ("exception when trying to intercept:" ++ "boom"))) :=
  ⟨by decide,
   (c2_decode_failure_tagged .dictNil "https://x.com/api/1" "api" "boom" (by decide)).1⟩

/-- C1 (counterexample): the claim asserts that, whenever no matching response
arrives within the timeout, `intercept_json_playwright` returns the tagged
empty-payload error Result.  It does not hold for every configuration: with a
result parser configured (here the module's own default `json_parse_result`,
exactly as the repository's empty-response test runs it), the last classifier
verdict is "not an error", so the parser is applied to the empty-payload error
Result and the call returns `{}` instead of the tagged record. -/
theorem c1_counterexample :
    intercept_json_playwright c1Cfg quietEnv = .ok .dictNil ∧
    PyVal.dictNil ≠ emptyJsonError := by
  exact ⟨rfl, by decide⟩

/-- C1 (amended): if no matching response arrives within the budget, the loop
runs at least one iteration (navigation time within the timeout, a positive
refresh budget) and no parser is configured, the call returns the tagged
empty-payload error Result; with a parser configured it would instead return
the parser applied to that Result. -/
theorem c1_timeout_empty_error (cfg : InterceptConfig) (env : InterceptEnv)
    (hparse : cfg.json_parse_result = .absent)
    (hgoto : (env.gotoMs : Int) ≤ cfg.timeout)
    (hrefresh : 0 < cfg.max_refresh)
    (hquiet0 : ∀ ev ∈ env.gotoDeliveries, containsSub ev.url cfg.jsonUrlSubpart = false)
    (hquiet : ∀ i, ∀ ev ∈ (env.iter i).deliveries,
      containsSub ev.url cfg.jsonUrlSubpart = false) :
    intercept_json_playwright cfg env = .ok emptyJsonError := by
  unfold intercept_json_playwright
  have ht0 : (initSt cfg env).target_json = .dictNil := by
    show env.gotoDeliveries.foldl (handleSlot cfg.jsonUrlSubpart) .dictNil = .dictNil
    exact foldl_handleSlot_nonmatch _ _ hquiet0 _
  have hcond0 := loopCond_init_true cfg env hgoto hrefresh
  obtain ⟨m, hm⟩ : ∃ m, interceptFuel cfg = m + 1 := ⟨_, rfl⟩
  rw [hm, interceptLoop]
  simp only [hcond0, if_true]
  obtain ⟨st', hstep, ht', hc', hr'⟩ :=
    iterBody_empty_step cfg (env.iter 0) (initSt cfg env) (hquiet 0) ht0 rfl
  rw [hstep, finalize_parse_absent cfg _ hparse,
      interceptLoop_empty cfg env hquiet m 1 st' ht' hc' hr']

/-- Witness for the amended C1: the quiet default configuration (all hooks
absent, `max_refresh=1`, `timeout=4000`, instantaneous navigation, no response
ever delivered) returns the tagged empty-payload error Result. -/
theorem c1_timeout_empty_error_witness :
    intercept_json_playwright plainCfg quietEnv = .ok emptyJsonError :=
  c1_timeout_empty_error plainCfg quietEnv rfl (by decide) (by decide)
    (by intro ev hev; simp [quietEnv] at hev)
    (by intro i ev hev; simp [quietEnv, quietIter] at hev)

/-- C8 (counterexample): the claim asserts the call always returns a
well-formed Result (with `error`, `error_message` and `data` fields), even
when the loop never executes.  The code violates this: with the refresh
budget already exhausted (`max_refresh=0`) the loop guard fails immediately
and the call returns the initial empty mapping `{}`, which has none of the
three fields. -/
theorem c8_counterexample :
    intercept_json_playwright c8Cfg quietEnv = .ok .dictNil ∧
    PyVal.dictNil.containsKey "error" = false ∧
    PyVal.dictNil.containsKey "error_message" = false ∧
    PyVal.dictNil.containsKey "data" = false := by
  exact ⟨rfl, rfl, rfl, rfl⟩

/-- C8 (amended): when the loop does execute at least one full iteration
(navigation within the timeout, positive refresh budget) and neither a
classifier nor a parser is configured, the call returns a well-formed Result:
all three fields are present and `error` is falsy exactly when `data` holds a
truthy payload.  When the loop never runs, the call instead returns the
initial empty mapping (see the counterexample). -/
theorem c8_wellformed_when_loop_runs (cfg : InterceptConfig) (env : InterceptEnv)
    (hdetect : cfg.json_detect_error = .absent)
    (hparse : cfg.json_parse_result = .absent)
    (hgoto : (env.gotoMs : Int) ≤ cfg.timeout)
    (hrefresh : 0 < cfg.max_refresh) :
    wellFormedOutcome (intercept_json_playwright cfg env) := by
  unfold intercept_json_playwright
  have hcond0 := loopCond_init_true cfg env hgoto hrefresh
  obtain ⟨m, hm⟩ : ∃ m, interceptFuel cfg = m + 1 := ⟨_, rfl⟩
  rw [hm, interceptLoop]
  simp only [hcond0, if_true]
  cases hb : iterBody cfg (env.iter 0) (initSt cfg env) with
  | brk st' =>
    rw [finalize_parse_absent cfg _ hparse]
    exact (iterBody_detect_absent_cases cfg (env.iter 0) (initSt cfg env)
      hdetect rfl st').1 hb
  | cont st' =>
    rw [finalize_parse_absent cfg _ hparse]
    obtain ⟨hc', hwf⟩ := (iterBody_detect_absent_cases cfg (env.iter 0)
      (initSt cfg env) hdetect rfl st').2 hb
    exact interceptLoop_wellFormed cfg env hdetect m 1 st' hc' hwf

/-- Witness for the amended C8: the quiet default configuration returns a
well-formed Result. -/
theorem c8_wellformed_when_loop_runs_witness :
    wellFormedOutcome (intercept_json_playwright plainCfg quietEnv) :=
  c8_wellformed_when_loop_runs plainCfg quietEnv rfl rfl (by decide) (by decide)

/-- C9 (counterexample): the claim asserts that passing a non-callable where a
hook callable was expected fails fast with a configuration error at call time.
The code does neither: a truthy non-callable classifier is silently ignored
(the `callable(json_detect_error)` guard just skips it) and the call completes
normally, returning the empty-payload error Result; a truthy non-callable
parser is not rejected at call time either — the call runs the whole polling
loop and only then raises a `TypeError` when the final
`json_parse_result(result)` application is attempted. -/
theorem c9_counterexample :
    intercept_json_playwright c9Cfg quietEnv = .ok emptyJsonError ∧
    intercept_json_playwright c9bCfg quietEnv =
      .error "TypeError: json_parse_result object is not callable" := by
  exact ⟨rfl, rfl⟩

/-- C9 (amended): a non-callable classifier and a non-callable captcha solver
are silently ignored — the call behaves exactly as if those hooks were absent
(`callable(...)` guards).  Only a truthy non-callable parser ever surfaces,
and it does so as a `TypeError` after the loop, not as a configuration error
at call time (see the counterexample). -/
theorem c9_noncallable_hooks_ignored (cfg : InterceptConfig) (env : InterceptEnv)
    (t t' : Bool) :
    intercept_json_playwright
      { cfg with json_detect_error := .notCallable t,
                 captcha_solver_function := .notCallable t' } env =
    intercept_json_playwright
      { cfg with json_detect_error := .absent,
                 captcha_solver_function := .absent } env := by
  unfold intercept_json_playwright
  have hloop :
      interceptLoop
        { cfg with json_detect_error := .notCallable t,
                   captcha_solver_function := .notCallable t' } env
        (interceptFuel
          { cfg with json_detect_error := .absent, captcha_solver_function := .absent })
        0
        (initSt
          { cfg with json_detect_error := .absent, captcha_solver_function := .absent }
          env) =
      interceptLoop
        { cfg with json_detect_error := .absent, captcha_solver_function := .absent } env
        (interceptFuel
          { cfg with json_detect_error := .absent, captcha_solver_function := .absent })
        0
        (initSt
          { cfg with json_detect_error := .absent, captcha_solver_function := .absent }
          env) :=
    interceptLoop_congr
      { cfg with json_detect_error := .notCallable t,
                 captcha_solver_function := .notCallable t' }
      { cfg with json_detect_error := .absent, captcha_solver_function := .absent }
      env (fun _ => rfl) (fun _ _ => rfl) _ 0 _
  show finalize
      { cfg with json_detect_error := .absent, captcha_solver_function := .absent }
      (interceptLoop
        { cfg with json_detect_error := .notCallable t,
                   captcha_solver_function := .notCallable t' } env
        (interceptFuel
          { cfg with json_detect_error := .absent, captcha_solver_function := .absent })
        0
        (initSt
          { cfg with json_detect_error := .absent, captcha_solver_function := .absent }
          env)) = _
  rw [hloop]

end WebIntercept
